import Mathlib

set_option allowUnsafeReducibility true
attribute [local semireducible] Rat.add Rat.mul Rat.div Rat.inv Rat.sub
  Rat.neg Rat.blt Rat.floor Rat.ceil

/-! Verification of the invoice post-extraction reconciliation engine.

Shallow embedding of the reconciliation pipeline in `helper.py`
(class `InvoiceHelper`).  Python numbers are modelled as exact rationals
(`ℚ`); Python `round(x, n)` is modelled as round-half-to-even on the exact
value; `float(s)` is modelled by an explicit decimal parser (sign, digit
string, optional fractional part, optional exponent — the exotic inputs
`inf`/`nan`/underscore separators are treated as unparseable).  Fallible
code paths (Python exceptions) are modelled with `Except`.
-/

namespace Invoice

/-- A JSON-ish scalar value as it appears in the loosely typed records the
pipeline consumes: `null`, a string, or a number (exact rational). -/
inductive JVal where
  | vnull : JVal
  | vstr  : String → JVal
  | vnum  : ℚ → JVal
deriving DecidableEq, Repr

/-- Round a rational to the nearest integer, ties to even
(the rounding rule of Python `round`). -/
def rhalfEven (q : ℚ) : ℤ :=
  if q - ⌊q⌋ < 1/2 then ⌊q⌋
  else if 1/2 < q - ⌊q⌋ then ⌊q⌋ + 1
  else if ⌊q⌋ % 2 = 0 then ⌊q⌋ else ⌊q⌋ + 1

/-- Python `round(q, n)`: round to `n` decimal places, ties to even. -/
def pyRound (q : ℚ) (n : ℕ) : ℚ :=
  (rhalfEven (q * 10 ^ n) : ℚ) / 10 ^ n

/-- Python `\s` (ASCII): the whitespace stripped by `str.strip()` and
matched by `\s`. -/
def isPySpace (c : Char) : Bool :=
  c = ' ' ∨ c = '\t' ∨ c = '\n' ∨ c = '\x0d' ∨ c = '\x0b' ∨ c = '\x0c'

/-- Python `s.strip()`: remove whitespace from both ends.  (Defined over
the character list so that proofs can evaluate it.) -/
def trimStr (s : String) : String :=
  String.mk (((s.data.dropWhile isPySpace).reverse.dropWhile isPySpace).reverse)

/-- Python `c in s` for a single character. -/
def containsChar (s : String) (c : Char) : Bool :=
  s.data.any (fun x => x = c)

/-- Python `s.replace(c, "")`: remove every occurrence of a character. -/
def remChar (s : String) (c : Char) : String :=
  String.mk (s.data.filter (fun x => x ≠ c))

/-- Python `s.lower()` (ASCII). -/
def toLowerStr (s : String) : String := String.mk (s.data.map Char.toLower)

/-- Python `s.upper()` (ASCII). -/
def toUpperStr (s : String) : String := String.mk (s.data.map Char.toUpper)

/-- Python `s.split(c)` on a character list. -/
def splitOnCharList (c : Char) : List Char → List (List Char)
  | [] => [[]]
  | x :: xs =>
    if x = c then [] :: splitOnCharList c xs
    else
      match splitOnCharList c xs with
      | []     => [[x]]
      | h :: t => (x :: h) :: t

/-- Python `s.split(c)`. -/
def splitOnChar (s : String) (c : Char) : List String :=
  (splitOnCharList c s.data).map String.mk

/-- Numeric value of a digit string (most significant first). -/
def digitsVal (l : List Char) : ℕ :=
  l.foldl (fun a c => a * 10 + (c.toNat - 48)) 0

/-- Leading digit run of a character list, and the rest. -/
def splitDigits (l : List Char) : List Char × List Char :=
  (l.takeWhile Char.isDigit, l.dropWhile Char.isDigit)

/-- Optional sign at the head of a character list. -/
def splitSign (l : List Char) : ℤ × List Char :=
  match l with
  | '+' :: r => (1, r)
  | '-' :: r => (-1, r)
  | _        => (1, l)

/-- Exponent suffix of a Python float literal (`e`/`E`, sign, digits),
applied to an already-parsed mantissa. -/
def pyFloatExp (base : ℚ) (rest : List Char) : Option ℚ :=
  match rest with
  | [] => some base
  | c :: r =>
    if c = 'e' ∨ c = 'E' then
      let (esgn, r1) := splitSign r
      let (ed, r2) := splitDigits r1
      if ed.isEmpty ∨ ¬ r2.isEmpty then none
      else some (base * (10 : ℚ) ^ (esgn * (digitsVal ed : ℤ)))
    else none

/-- Python `float(s)` on a string: surrounding whitespace stripped, then
`[sign] digits [. digits] [exponent]` (at least one mantissa digit). -/
def pyFloat (s : String) : Option ℚ :=
  let l := (trimStr s).data
  let (sgn, l1) := splitSign l
  let (ip, l2) := splitDigits l1
  match l2 with
  | '.' :: r =>
    let (fp, r1) := splitDigits r
    if ip.isEmpty ∧ fp.isEmpty then none
    else pyFloatExp ((sgn : ℚ) * ((digitsVal ip : ℚ) + (digitsVal fp : ℚ) / 10 ^ fp.length)) r1
  | _ =>
    if ip.isEmpty then none
    else pyFloatExp ((sgn : ℚ) * (digitsVal ip : ℚ)) l2

/-- Python `s.strip(c)`: remove every occurrence of `c` from both ends. -/
def stripBoth (s : String) (c : Char) : String :=
  String.mk (((s.data.dropWhile (· = c)).reverse.dropWhile (· = c)).reverse)

/-- Python `int(s)`: optional surrounding whitespace and sign, then a
nonempty digit string; anything else raises `ValueError`. -/
def pyIntOfString (s : String) : Except Unit ℤ :=
  let l := (trimStr s).data
  let (sgn, l1) := splitSign l
  if l1.isEmpty ∨ ¬ (l1.all Char.isDigit) then .error ()
  else .ok (sgn * (digitsVal l1 : ℤ))

/-- One invoice line item: the fields read or written by the pipeline.
`none` models an absent key, `some .vnull` a key whose value is `null`. -/
structure LineItem where
  product_name          : Option JVal := none
  product_code          : Option JVal := none
  order_quantity        : Option JVal := none
  order_unit            : Option JVal := none
  order_unit_price_excl : Option JVal := none
  order_unit_price_incl : Option JVal := none
  order_unit_tax        : Option JVal := none
  order_unit_size       : Option JVal := none
  pack_size             : Option JVal := none
  pack_unit             : Option JVal := none
  gst_indicator         : Option JVal := none
  line_total_excl       : Option JVal := none
  line_total_incl       : Option JVal := none
  line_total_tax        : Option JVal := none
  price_quantity        : Option JVal := none
deriving DecidableEq, Repr

/-- The top-level invoice record: the fields read or written by the
functions under verification. -/
structure Record where
  supplier_name           : Option JVal := none
  Line_Items              : List LineItem := []
  discount_amount         : Option JVal := none
  shipping_cost           : Option JVal := none
  picking_charge          : Option JVal := none
  total_excl_tax          : Option JVal := none
  total_tax               : Option JVal := none
  total_amount            : Option JVal := none
  published_subtotal_excl : Option JVal := none
  published_gst_total     : Option JVal := none
  published_total_incl    : Option JVal := none
  subtotal_variance       : Option JVal := none
  gst_variance            : Option JVal := none
  total_variance          : Option JVal := none
deriving DecidableEq, Repr

/-! ## Field coercion (`float(x) if x is not None else d`, and
`float(x.get(key, 0))`) -/

/-- `float(v) if v is not None else d` for an optional field `v`:
absent key or `null` value give the default, a number gives itself,
a string is parsed (an unparseable string raises). -/
def coerceOr (d : ℚ) (v : Option JVal) : Except Unit ℚ :=
  match v with
  | none            => .ok d
  | some .vnull     => .ok d
  | some (.vnum q)  => .ok q
  | some (.vstr s)  => match pyFloat s with
    | some q => .ok q
    | none   => .error ()

/-- `float(item.get(key, 0))`: absent key gives `0.0`, a `null` value
raises (`float(None)` is a `TypeError`), strings are parsed. -/
def coerceGet0 (v : Option JVal) : Except Unit ℚ :=
  match v with
  | none            => .ok 0
  | some .vnull     => .error ()
  | some (.vnum q)  => .ok q
  | some (.vstr s)  => match pyFloat s with
    | some q => .ok q
    | none   => .error ()

/-- `float(item.get(key, 1))` (used for `order_quantity` in the Anchor
Packaging rule): absent key gives `1.0`, a `null` value raises. -/
def coerceGet1 (v : Option JVal) : Except Unit ℚ :=
  match v with
  | none            => .ok 1
  | some .vnull     => .error ()
  | some (.vnum q)  => .ok q
  | some (.vstr s)  => match pyFloat s with
    | some q => .ok q
    | none   => .error ()

/-- `data.get("supplier_name", "").strip().lower() == "pnm sydney pty ltd"`:
an absent key compares the default `""`; a `null` or numeric value raises
(`None.strip()` / `float.strip()` is an `AttributeError`). -/
def supplierIsPNM (v : Option JVal) : Except Unit Bool :=
  match v with
  | none           => .ok false
  | some (.vstr s) => .ok (toLowerStr (trimStr s) == "pnm sydney pty ltd")
  | some .vnull    => .error ()
  | some (.vnum _) => .error ()

/-! ## Line-item reconciler (`calculate_missing_fields`, helper.py 99-223) -/

/-- Coercion of the raw `line_total_excl` (helper.py 112-123): a string
with a `$` is parsed after stripping `$`; otherwise a string with a comma
is parsed after removing commas; otherwise `float(excl) if excl is not
None else 0`. -/
def coerceExcl (v : Option JVal) : Except Unit ℚ :=
  match v with
  | some (.vstr s) =>
    if containsChar s '$' then
      match pyFloat (stripBoth s '$') with
      | some q => .ok q
      | none   => .error ()
    else if containsChar s ',' then
      match pyFloat (remChar s ',') with
      | some q => .ok q
      | none   => .error ()
    else
      match pyFloat s with
      | some q => .ok q
      | none   => .error ()
  | some (.vnum q) => .ok q
  | some .vnull    => .ok 0
  | none           => .ok 0

/-- Parsing of the transient `price/quantity` field for the PNM supplier
(helper.py 131-148): currency symbols and spaces removed, a two-part
`a / b` string is a division (division by zero raises), anything else is
parsed directly. -/
def parsePriceQuantity (v : JVal) : Except Unit ℚ :=
  match v with
  | .vstr s =>
    let cleaned := remChar (remChar s '$') ' '
    if containsChar cleaned '/' then
      match splitOnChar cleaned '/' with
      | [a, b] =>
        match pyFloat a, pyFloat b with
        | some num, some den => if den = 0 then .error () else .ok (num / den)
        | _, _ => .error ()
      | _ =>
        match pyFloat cleaned with
        | some q => .ok q
        | none   => .error ()
    else
      match pyFloat cleaned with
      | some q => .ok q
      | none   => .error ()
  | .vnum q => .ok q
  | .vnull  => .error ()

/-- Tax resolution (helper.py 153-181): classification of the raw
`line_total_tax` field, before the 4-decimal rounding of line 184. -/
def resolveTax (tax : Option JVal) (excl incl : ℚ) : Except Unit ℚ :=
  match tax with
  | some (.vstr s) =>
    if containsChar s '%' then
      match pyFloat (stripBoth s '%') with
      | some pct => .ok (excl * pct / 100)
      | none     => .error ()
    else if containsChar s '$' then
      match pyFloat (stripBoth s '$') with
      | some amt => .ok amt
      | none     => .error ()
    else
      match pyFloat s with
      | none   => .error ()
      | some v =>
        if containsChar s '.' then .ok v
        else if v.den = 1 then .ok (excl * (v / 100))
        else .ok v
  | _ =>
    if 0 < incl ∧ 0 < excl then .ok (incl - excl) else .ok 0

/-- Excl/incl completion (helper.py 186-198): the `if/elif` chain filling
the missing one of `line_total_excl`/`line_total_incl`. -/
def completeExclIncl (excl incl taxAmt : ℚ) : ℚ × ℚ :=
  if 0 < incl ∧ taxAmt = 0 then (incl, incl)
  else if 0 < excl ∧ incl = 0 then (excl, pyRound (excl + taxAmt) 4)
  else if 0 < incl ∧ excl = 0 then (pyRound (incl - taxAmt) 4, incl)
  else if 0 < excl ∧ 0 < incl then (excl, pyRound (excl + taxAmt) 4)
  else (excl, incl)

/-- `item.get("order_unit") in [None, ""]` (helper.py 206). -/
def orderUnitMissing (v : Option JVal) : Bool :=
  match v with
  | none              => true
  | some .vnull       => true
  | some (.vstr s)    => s == ""
  | some (.vnum _)    => false

/-- The infallible tail of per-item processing (helper.py 186-217): given
the item as mutated so far and the coerced `excl`, `incl`, rounded
`tax_amt` and `qty`, complete the totals, derive the unit fields and the
GST indicator, default the order unit, and write all fields back. -/
def finishItem (it : LineItem) (excl incl taxAmt qty : ℚ) : LineItem :=
  let c := completeExclIncl excl incl taxAmt
  let unitTax := if qty ≠ 0 then pyRound (taxAmt / qty) 4 else 0
  let unitExcl := if qty ≠ 0 then pyRound (c.1 / qty) 4 else 0
  let unitIncl := pyRound (unitExcl + unitTax) 4
  let gst : String := if 0 < unitTax then "GST" else "NO GST"
  let it1 := if orderUnitMissing it.order_unit
             then { it with order_unit := some (.vstr "EA") } else it
  { it1 with
    line_total_excl       := some (.vnum c.1)
    line_total_tax        := some (.vnum taxAmt)
    line_total_incl       := some (.vnum c.2)
    order_unit_price_excl := some (.vnum unitExcl)
    order_unit_tax        := some (.vnum unitTax)
    order_unit_price_incl := some (.vnum unitIncl)
    gst_indicator         := some (.vstr gst) }

/-- The fallible head of per-item processing (helper.py 104-184): field
coercions, the PNM quantity reinterpretation (which mutates
`order_quantity` before the later, still fallible, tax resolution), and
tax resolution.  On an exception the `.error` carries the item in its
state at the point of failure. -/
def processItemStage1 (supplier : Option JVal) (it : LineItem) :
    Except LineItem (LineItem × ℚ × ℚ × ℚ × ℚ) :=
  match coerceExcl it.line_total_excl with
  | .error _ => .error it
  | .ok excl =>
  match coerceOr 0 it.line_total_incl with
  | .error _ => .error it
  | .ok incl =>
  match coerceOr 1 it.order_quantity with
  | .error _ => .error it
  | .ok qty0 =>
  match supplierIsPNM supplier with
  | .error _ => .error it
  | .ok isPNM =>
  let step2 : Except LineItem (LineItem × ℚ) :=
    if isPNM then
      match it.price_quantity with
      | none        => .ok (it, qty0)
      | some .vnull => .ok (it, qty0)
      | some v      =>
        if excl ≠ 0 then
          match parsePriceQuantity v with
          | .error _ => .error it
          | .ok pqv  =>
            let qty := qty0 * pqv / excl
            .ok ({ it with order_quantity := some (.vnum qty) }, qty)
        else .ok (it, qty0)
    else .ok (it, qty0)
  match step2 with
  | .error e => .error e
  | .ok (it1, qty) =>
  match resolveTax it.line_total_tax excl incl with
  | .error _ => .error it1
  | .ok tax0 => .ok (it1, excl, incl, pyRound tax0 4, qty)

/-- One iteration of the `calculate_missing_fields` loop body, before the
`except` clause: either the fully updated item or, on an exception, the
item in its state at the point of failure. -/
def processItemCore (supplier : Option JVal) (it : LineItem) :
    Except LineItem LineItem :=
  (processItemStage1 supplier it).map
    (fun r => finishItem r.1 r.2.1 r.2.2.1 r.2.2.2.1 r.2.2.2.2)

/-- The loop body with its `except Exception` handler (helper.py 220-221):
an exception is caught and the item keeps its state at the failure point. -/
def processItem (supplier : Option JVal) (it : LineItem) : LineItem :=
  match processItemCore supplier it with
  | .ok r    => r
  | .error r => r

/-- The per-item loop of `calculate_missing_fields` (helper.py 101). -/
def calcItemsLoop (supplier : Option JVal) : List LineItem → List LineItem
  | []        => []
  | it :: its => processItem supplier it :: calcItemsLoop supplier its

/-- `calculate_missing_fields` (helper.py 99-223): reconcile every line
item in turn; exceptions are handled per item, so the function is total. -/
def calculate_missing_fields (r : Record) : Record :=
  { r with Line_Items := calcItemsLoop r.supplier_name r.Line_Items }

/-! ## A small regex engine

`extract_pack_details` matches an ordered list of regular expressions with
`re.search(..., re.IGNORECASE)`.  The patterns only use literal characters,
`\d`, `\s`, `[A-Z]`, greedy `*`/`+`/`?`/`{1,4}`, alternation of literals,
capture groups, `^` and `\b`; the engine below implements exactly these
with Python's leftmost-position, backtracking-priority semantics. -/

/-- Python `\w` (ASCII). -/
def isWordChar (c : Char) : Bool := c.isAlphanum ∨ c = '_'

/-- Single-character classes occurring in the pack patterns; matching is
case-insensitive (`re.IGNORECASE`). -/
inductive RChar where
  | digit   : RChar
  | space   : RChar
  | alphaAZ : RChar
  | lit     : Char → RChar
deriving DecidableEq, Repr

/-- Whether a character matches a class (case-insensitively). -/
def RChar.matchesChar : RChar → Char → Bool
  | .digit,   c => c.isDigit
  | .space,   c => isPySpace c
  | .alphaAZ, c => 'A' ≤ c.toUpper ∧ c.toUpper ≤ 'Z'
  | .lit c0,  c => c.toUpper = c0.toUpper

/-- Regular expressions as used by the pack patterns.  `star`/`plus` are
restricted to single-character classes (the only shapes that occur), which
keeps the backtracking matcher structurally terminating. -/
inductive RE where
  | fail  : RE
  | eps   : RE
  | ch    : RChar → RE
  | seq   : RE → RE → RE
  | alt   : RE → RE → RE
  | opt   : RE → RE
  | star  : RChar → RE
  | plus  : RChar → RE
  | group : Nat → RE → RE
  | bol   : RE
  | wb    : RE
deriving Repr

/-- Captured groups: group number paired with the matched substring. -/
abbrev Caps := List (Nat × String)

/-- All ways a greedy `c*` can consume a prefix of `rest` starting at
`pos`, longest first: returns the new position and remaining input. -/
def starSplits (rc : RChar) : List Char → Nat → List (Nat × List Char)
  | [], pos => [(pos, [])]
  | c :: cs, pos =>
    if rc.matchesChar c then starSplits rc cs (pos + 1) ++ [(pos, c :: cs)]
    else [(pos, c :: cs)]

/-- Backtracking matcher: all matches of `r` on `rest` (a suffix of
`full` starting at position `pos`), in backtracking priority order.  Each
result is the end position, the remaining input and the captures. -/
def reRun (full : List Char) : RE → List Char → Nat → Caps →
    List (Nat × List Char × Caps)
  | .fail, _, _, _ => []
  | .eps, rest, pos, caps => [(pos, rest, caps)]
  | .ch rc, rest, pos, caps =>
    match rest with
    | [] => []
    | c :: cs => if rc.matchesChar c then [(pos + 1, cs, caps)] else []
  | .seq a b, rest, pos, caps =>
    (reRun full a rest pos caps).flatMap
      (fun x => reRun full b x.2.1 x.1 x.2.2)
  | .alt a b, rest, pos, caps =>
    reRun full a rest pos caps ++ reRun full b rest pos caps
  | .opt r, rest, pos, caps =>
    reRun full r rest pos caps ++ [(pos, rest, caps)]
  | .star rc, rest, pos, caps =>
    (starSplits rc rest pos).map (fun x => (x.1, x.2, caps))
  | .plus rc, rest, pos, caps =>
    match rest with
    | [] => []
    | c :: cs =>
      if rc.matchesChar c then
        (starSplits rc cs (pos + 1)).map (fun x => (x.1, x.2, caps))
      else []
  | .group n r, rest, pos, caps =>
    (reRun full r rest pos caps).map
      (fun x => (x.1, x.2.1, (n, String.mk (rest.take (x.1 - pos))) :: x.2.2))
  | .bol, rest, pos, caps => if pos = 0 then [(pos, rest, caps)] else []
  | .wb, rest, pos, caps =>
    let prevW := match full.get? (pos - 1) with
      | some c => pos ≠ 0 ∧ isWordChar c
      | none   => False
    let nextW := match rest with
      | c :: _ => isWordChar c
      | []     => False
    if (prevW : Bool) ≠ (nextW : Bool) then [(pos, rest, caps)] else []

/-- `re.search` scanning: try each start position left to right and return
the captures of the first (highest-priority) match found. -/
def reSearchFrom (r : RE) (full : List Char) : List Char → Nat → Option Caps
  | rest, pos =>
    match (reRun full r rest pos []).head? with
    | some x => some x.2.2
    | none =>
      match rest with
      | [] => none
      | _ :: cs => reSearchFrom r full cs (pos + 1)

/-- `re.search(pattern, s, re.IGNORECASE)`, returning the captures. -/
def reSearch (r : RE) (s : String) : Option Caps :=
  reSearchFrom r s.data s.data 0

/-- Sequence a list of regexes. -/
def rseq (l : List RE) : RE := l.foldr RE.seq RE.eps

/-- Alternation of a list of regexes, left-preferring (Python `a|b|c`). -/
def ralts (l : List RE) : RE := l.foldr RE.alt RE.fail

/-- A case-insensitive literal string. -/
def rlit (s : String) : RE := rseq (s.data.map (fun c => RE.ch (.lit c)))

/-- `\d+` -/
def rdigits : RE := RE.plus .digit

/-- `\d+(?:\.\d+)?` -/
def rnum : RE := RE.seq rdigits (RE.opt (RE.seq (RE.ch (.lit '.')) rdigits))

/-- `[A-Z]{1,4}` (greedy), unrolled as `A A? A? A?`. -/
def ralpha14 : RE :=
  rseq [RE.ch .alphaAZ, RE.opt (RE.ch .alphaAZ), RE.opt (RE.ch .alphaAZ),
        RE.opt (RE.ch .alphaAZ)]

/-- The `pattern_type` tags of the pack patterns (helper.py 228-252).
`numeric_quantity_lead` is the tag spelled `numeric_quantity_` + `prefix`
in the source (the `^(\d+)\b` pattern). -/
inductive PatTy where
  | gm_raw_pattern | qtyxsize_unit | spaced_qtyxsize_unit
  | pk_pattern | kg_pattern | g_pattern | ml_pattern | l_pattern
  | ml_pack_bottle_pattern
  | kg_single | g_single | ml_single | l_single
  | count_pattern | numeric_quantity_lead | pk_only_pattern
deriving DecidableEq, Repr

/-- The ordered pack-pattern list (helper.py 228-252), transcribed
pattern by pattern. -/
def pack_patterns : List (RE × PatTy) :=
  [ (rseq [RE.group 1 rdigits, RE.ch (.lit 'X'), RE.group 2 rnum,
           RE.group 3 (rlit "GM")], .gm_raw_pattern),
    (rseq [RE.group 1 rdigits, RE.ch (.lit 'X'), RE.group 2 rnum,
           RE.group 3 (ralts [rlit "KG", rlit "G", rlit "L", rlit "ML",
                              rlit "PC", rlit "EA"])], .qtyxsize_unit),
    (rseq [RE.group 1 rdigits, RE.star .space, RE.ch (.lit 'x'),
           RE.star .space, RE.group 2 rnum, RE.group 3 ralpha14],
     .spaced_qtyxsize_unit),
    (rseq [RE.group 1 rnum, RE.group 2 (rlit "PK"), RE.ch (.lit 'X'),
           RE.group 3 rdigits], .pk_pattern),
    (rseq [RE.group 1 rnum, RE.group 2 (ralts [rlit "K", rlit "KG"]),
           RE.ch (.lit 'X'), RE.group 3 rdigits], .kg_pattern),
    (rseq [RE.group 1 rnum, RE.group 2 (rlit "G"), RE.ch (.lit 'X'),
           RE.group 3 rdigits], .g_pattern),
    (rseq [RE.group 1 rnum, RE.group 2 (rlit "ML"), RE.ch (.lit 'X'),
           RE.group 3 rdigits], .ml_pattern),
    (rseq [RE.group 1 rnum, RE.group 2 (rlit "L"), RE.ch (.lit 'X'),
           RE.group 3 rdigits], .l_pattern),
    (rseq [RE.group 1 rdigits, RE.star .space,
           RE.group 2 (ralts [rlit "PET", rlit "FLO", rlit "NRB"]),
           RE.star .space, RE.ch (.lit 'X'), RE.group 3 rdigits],
     .ml_pack_bottle_pattern),
    (rseq [RE.group 1 rnum, RE.group 2 (ralts [rlit "K", rlit "KG"])],
     .kg_single),
    (rseq [RE.group 1 rnum, RE.group 2 (rlit "G")], .g_single),
    (rseq [RE.group 1 rnum, RE.group 2 (rlit "ML")], .ml_single),
    (rseq [RE.group 1 rnum, RE.group 2 (rlit "L")], .l_single),
    (rseq [RE.group 1 rdigits, RE.ch (.lit 'X'), RE.group 2 rdigits],
     .count_pattern),
    (rseq [RE.bol, RE.group 1 rdigits, RE.wb], .numeric_quantity_lead),
    (rseq [RE.group 1 rdigits, RE.group 2 (rlit "PK")], .pk_only_pattern) ]

/-- The first matching pattern (the loop with `break`, helper.py 283-390). -/
def firstPatMatch (name : String) : Option (PatTy × Caps) :=
  pack_patterns.findSome? (fun p => (reSearch p.1 name).map (fun c => (p.2, c)))

/-- `match.group(n)` of a successful search. -/
def capS (caps : Caps) (n : Nat) : String :=
  ((caps.find? (fun p => p.1 = n)).map (fun p => p.2)).getD ""

/-- `float(match.group(n))`. -/
def capFloat (caps : Caps) (n : Nat) : Except Unit ℚ :=
  match pyFloat (capS caps n) with
  | some q => .ok q
  | none   => .error ()

/-- `int(match.group(n))` — raises on a capture containing a decimal
point (possible for the `pk_pattern` whose group 1 is `\d+(?:\.\d+)?`). -/
def capInt (caps : Caps) (n : Nat) : Except Unit ℚ :=
  (pyIntOfString (capS caps n)).map (fun z => (z : ℚ))

/-- The per-pattern-type semantics (helper.py 286-388): from the captures
of the matched pattern to `(order_unit_size, pack_size, pack_unit)`. -/
def applyPattern (ty : PatTy) (caps : Caps) : Except Unit (ℚ × ℚ × String) :=
  match ty with
  | .qtyxsize_unit => do
    let ous ← capInt caps 1
    let ps ← capFloat caps 2
    let unit := toUpperStr (capS caps 3)
    let pu := if unit = "K" ∨ unit = "KG" then "KG"
      else if unit = "ML" ∨ unit = "L" then "L"
      else if unit = "PC" ∨ unit = "EA" then "EA"
      else unit
    if unit = "G" then .ok (ous, ps / 1000, "KG")
    else if unit = "ML" then .ok (ous, ps / 1000, "L")
    else .ok (ous, ps, pu)
  | .gm_raw_pattern => do
    let ous ← capInt caps 1
    let ps ← capFloat caps 2
    .ok (ous, ps / 1000, "KG")
  | .spaced_qtyxsize_unit => do
    let ous ← capInt caps 1
    let ps ← capFloat caps 2
    let ur := toUpperStr (capS caps 3)
    if ["LT", "LTR", "LITRE", "LITRES"].contains ur then .ok (ous, ps, "L")
    else if ["ML", "MILLILITRE", "MILLILITRES"].contains ur then
      .ok (ous, ps / 1000, "L")
    else if ["KG", "KGS", "KILOGRAM"].contains ur then .ok (ous, ps, "KG")
    else if ["G", "GM", "GRAM", "GRAMS"].contains ur then
      .ok (ous, ps / 1000, "KG")
    else if ["PC", "PCS", "EA", "EACH"].contains ur then .ok (ous, ps, "EA")
    else .ok (ous, ps, ur)
  | .pk_pattern => do
    let ous ← capInt caps 1
    let ps ← capFloat caps 3
    .ok (ous, ps, "EA")
  | .kg_pattern | .g_pattern | .ml_pattern | .l_pattern => do
    let ps ← capFloat caps 1
    let unit := toUpperStr (capS caps 2)
    let ous ← capInt caps 3
    if unit = "G" then .ok (ous, ps / 1000, "KG")
    else if unit = "ML" then .ok (ous, ps / 1000, "L")
    else if unit = "K" then .ok (ous, ps, "KG")
    else if unit = "L" then .ok (ous, ps, "L")
    else .ok (ous, ps, unit)
  | .ml_pack_bottle_pattern => do
    let ps ← capFloat caps 1
    let ous ← capInt caps 3
    .ok (ous, ps / 1000, "L")
  | .kg_single | .g_single | .ml_single | .l_single => do
    let ps ← capFloat caps 1
    let unit := toUpperStr (capS caps 2)
    if unit = "G" then .ok (1, ps / 1000, "KG")
    else if unit = "ML" then .ok (1, ps / 1000, "L")
    else if unit = "K" then .ok (1, ps, "KG")
    else if unit = "L" then .ok (1, ps, "L")
    else .ok (1, ps, unit)
  | .count_pattern => do
    let ous ← capInt caps 1
    let ps ← capFloat caps 2
    .ok (ous, ps, "EA")
  | .numeric_quantity_lead => .ok (1, 1, "EA")
  | .pk_only_pattern => do
    let ous ← capInt caps 1
    .ok (ous, 1, "EA")

/-- `item.get("product_name", "")`, then used as the subject of
`re.search` (a `null` or numeric value raises a `TypeError` there). -/
def getStrD (v : Option JVal) : Except Unit String :=
  match v with
  | none           => .ok ""
  | some (.vstr s) => .ok s
  | some .vnull    => .error ()
  | some (.vnum _) => .error ()

/-- The non-PNM branch of the `extract_pack_details` loop (helper.py
278-395): first matching pattern wins, defaults `1 / 1.0 / "EA"` when no
pattern matches. -/
def extractPackItemName (it : LineItem) : Except Unit LineItem :=
  match getStrD it.product_name with
  | .error _ => .error ()
  | .ok name =>
  match firstPatMatch name with
  | some tc =>
    match applyPattern tc.1 tc.2 with
    | .error _ => .error ()
    | .ok r =>
      .ok { it with order_unit_size := some (.vnum r.1),
                    pack_size := some (.vnum r.2.1),
                    pack_unit := some (.vstr r.2.2) }
  | none =>
    .ok { it with order_unit_size := some (.vnum 1),
                  pack_size := some (.vnum 1),
                  pack_unit := some (.vstr "EA") }

/-- The PNM branch of the `extract_pack_details` loop (helper.py 255-276):
fields are written only when `price/quantity` is present, and are set to
`null` unless it is a two-part `amount / count` string. -/
def extractPackItemPNM (it : LineItem) : Except Unit LineItem :=
  match it.price_quantity with
  | none        => .ok it
  | some .vnull => .ok it
  | some (.vstr s) =>
    let cleaned := remChar (remChar s '$') ' '
    if containsChar cleaned '/' then
      match splitOnChar cleaned '/' with
      | [_, b] =>
        match pyFloat b with
        | some ps => .ok { it with order_unit_size := some (.vnum 1),
                                   pack_size := some (.vnum ps),
                                   pack_unit := some (.vstr "EA") }
        | none => .error ()
      | _ => .ok { it with order_unit_size := some .vnull,
                           pack_size := some .vnull,
                           pack_unit := some .vnull }
    else .ok { it with order_unit_size := some .vnull,
                       pack_size := some .vnull,
                       pack_unit := some .vnull }
  | some (.vnum _) => .ok { it with order_unit_size := some .vnull,
                                    pack_size := some .vnull,
                                    pack_unit := some .vnull }

/-- The `extract_pack_details` loop over items; the supplier test runs
once per item and may itself raise. -/
def extractPackItems (supplier : Option JVal) :
    List LineItem → Except Unit (List LineItem)
  | [] => .ok []
  | it :: its =>
    match supplierIsPNM supplier with
    | .error _ => .error ()
    | .ok isPNM =>
    match (if isPNM then extractPackItemPNM it else extractPackItemName it) with
    | .error _ => .error ()
    | .ok it' =>
    match extractPackItems supplier its with
    | .error _ => .error ()
    | .ok rest => .ok (it' :: rest)

/-- `extract_pack_details` (helper.py 225-397). -/
def extract_pack_details (r : Record) : Except Unit Record :=
  (extractPackItems r.supplier_name r.Line_Items).map
    (fun l => { r with Line_Items := l })

/-! ## Anchor Packaging GST rule
(`recalculate_anchor_packaging_gst`, helper.py 491-521) -/

/-- The fallible body of the Anchor Packaging per-item `try` block: both
coercions must succeed and, since Python raises `ZeroDivisionError` on
division by zero, `order_quantity` must be nonzero once the divisions are
reached. -/
def anchorItemCore (it : LineItem) : Except Unit LineItem :=
  match coerceGet0 it.line_total_excl with
  | .error _ => .error ()
  | .ok excl =>
  match coerceGet1 it.order_quantity with
  | .error _ => .error ()
  | .ok qty =>
  let lineTax := pyRound (excl * (1/10)) 2
  let lineIncl := pyRound (excl + lineTax) 2
  if qty = 0 then .error () else
  let unitTax := pyRound (lineTax / qty) 4
  let unitExcl := pyRound (excl / qty) 4
  let unitIncl := pyRound (unitExcl + unitTax) 4
  .ok { it with
        line_total_tax        := some (.vnum lineTax)
        line_total_incl       := some (.vnum lineIncl)
        order_quantity        := some (.vnum qty)
        order_unit            := some (.vstr "EA")
        order_unit_price_excl := some (.vnum unitExcl)
        order_unit_tax        := some (.vnum unitTax)
        order_unit_price_incl := some (.vnum unitIncl)
        gst_indicator         := some (.vstr "GST") }

/-- The per-item `try`/`except`: an exception leaves the item unchanged
(all writes happen after the last fallible operation). -/
def anchorItem (it : LineItem) : LineItem :=
  match anchorItemCore it with
  | .ok r    => r
  | .error _ => it

/-- `recalculate_anchor_packaging_gst` (helper.py 491-521): renames the
supplier and applies the 10% rule to every item, per-item exceptions
caught. -/
def recalculate_anchor_packaging_gst (r : Record) : Record :=
  { r with supplier_name := some (.vstr "Anchor Packaging"),
           Line_Items := r.Line_Items.map anchorItem }

/-! ## PNM published-total reconciliation
(`reconcile_published_totals`, helper.py 523-561) -/

/-- `sum(float(item.get(key, 0)) for item in line_items)` for a given
field projection. -/
def sumField (f : LineItem → Option JVal) : List LineItem → Except Unit ℚ
  | [] => .ok 0
  | it :: its => do
    let v ← coerceGet0 (f it)
    let rest ← sumField f its
    .ok (v + rest)

/-- The parsed inputs of `reconcile_published_totals`. -/
structure ReconIn where
  sExcl : ℚ
  sTax  : ℚ
  sIncl : ℚ
  pSub  : ℚ
  pGst  : ℚ
  pIncl : ℚ
deriving DecidableEq, Repr

/-- Parse phase of `reconcile_published_totals`: the three line-item sums
and the three published fields (`float` of each may raise). -/
def reconParse (r : Record) : Except Unit ReconIn :=
  match sumField LineItem.line_total_excl r.Line_Items with
  | .error _ => .error ()
  | .ok sExcl =>
  match sumField LineItem.line_total_tax r.Line_Items with
  | .error _ => .error ()
  | .ok sTax =>
  match sumField LineItem.line_total_incl r.Line_Items with
  | .error _ => .error ()
  | .ok sIncl =>
  match coerceGet0 r.published_subtotal_excl with
  | .error _ => .error ()
  | .ok pSub =>
  match coerceGet0 r.published_gst_total with
  | .error _ => .error ()
  | .ok pGst =>
  match coerceGet0 r.published_total_incl with
  | .error _ => .error ()
  | .ok pIncl => .ok ⟨sExcl, sTax, sIncl, pSub, pGst, pIncl⟩

/-- Decision phase of `reconcile_published_totals` (helper.py 544-559):
keep the published value when it equals the recomputed 2-decimal sum,
otherwise overwrite it with the sum. -/
def reconBuild (r : Record) (c : ReconIn) : Record :=
  let newSub := pyRound c.sExcl 2
  let newGst := pyRound c.sTax 2
  let newIncl := pyRound c.sIncl 2
  let pSub := pyRound c.pSub 2
  let pGst := pyRound c.pGst 2
  let pIncl := pyRound c.pIncl 2
  { r with
    published_subtotal_excl :=
      some (.vnum (if pSub = newSub then pSub else newSub))
    published_gst_total :=
      some (.vnum (if pGst = newGst then pGst else newGst))
    published_total_incl :=
      some (.vnum (if pIncl = newIncl then pIncl else newIncl)) }

/-- `reconcile_published_totals` (helper.py 523-561, `precision = 2`). -/
def reconcile_published_totals (r : Record) : Except Unit Record :=
  (reconParse r).map (reconBuild r)

/-! ## Totals and variance aggregator
(`recalculate_totals_and_variances`, helper.py 608-657) -/

/-- Python `needle in haystack` on strings (substring test). -/
def pySubstr (needle hay : String) : Bool :=
  decide (needle.data <:+: hay.data)

/-- `data.get("supplier_name", "")` used as a string (substring tests
raise a `TypeError` on `null` or a number). -/
def getSupplierStr (v : Option JVal) : Except Unit String :=
  match v with
  | none           => .ok ""
  | some (.vstr s) => .ok s
  | some .vnull    => .error ()
  | some (.vnum _) => .error ()

/-- The parsed inputs of `recalculate_totals_and_variances`. -/
structure TotalsIn where
  lineExcl : ℚ
  shipping : ℚ
  picking  : ℚ
  discount : ℚ
  supplier : String
  lineTax  : ℚ
  pSub     : ℚ
  pGst     : ℚ
  pIncl    : ℚ
deriving DecidableEq, Repr

/-- Parse phase of `recalculate_totals_and_variances` (helper.py
612-642), in source order. -/
def totalsParse (r : Record) : Except Unit TotalsIn :=
  match sumField LineItem.line_total_excl r.Line_Items with
  | .error _ => .error ()
  | .ok lineExcl =>
  match coerceGet0 r.shipping_cost with
  | .error _ => .error ()
  | .ok shipping =>
  match coerceGet0 r.picking_charge with
  | .error _ => .error ()
  | .ok picking =>
  match coerceGet0 r.discount_amount with
  | .error _ => .error ()
  | .ok discount =>
  match getSupplierStr r.supplier_name with
  | .error _ => .error ()
  | .ok supplier =>
  match sumField LineItem.line_total_tax r.Line_Items with
  | .error _ => .error ()
  | .ok lineTax =>
  match coerceGet0 r.published_subtotal_excl with
  | .error _ => .error ()
  | .ok pSub =>
  match coerceGet0 r.published_gst_total with
  | .error _ => .error ()
  | .ok pGst =>
  match coerceGet0 r.published_total_incl with
  | .error _ => .error ()
  | .ok pIncl =>
    .ok ⟨lineExcl, shipping, picking, discount, supplier, lineTax, pSub,
         pGst, pIncl⟩

/-- Computation phase of `recalculate_totals_and_variances` (helper.py
621-655).  The PFD branch rewrites the stored `shipping_cost` but the
local variable used in the totals keeps the original value. -/
def totalsBuild (r : Record) (c : TotalsIn) : Record :=
  let newShip := pyRound (c.shipping + pyRound (c.shipping * (1/10)) 2) 2
  let r0 :=
    if pySubstr "PFD Food Services" c.supplier ∧ 0 < c.shipping then
      { r with shipping_cost := some (.vnum newShip) }
    else r
  let extraTotal := c.shipping + c.picking + c.discount
  let totalExcl := c.lineExcl + extraTotal
  let totalTax := c.lineTax + extraTotal * (1/10)
  let totalAmount := totalExcl + totalTax
  { r0 with
    total_excl_tax    := some (.vnum (pyRound totalExcl 2))
    total_tax         := some (.vnum (pyRound totalTax 2))
    total_amount      := some (.vnum (pyRound totalAmount 2))
    subtotal_variance := some (.vnum (pyRound (c.pSub - totalExcl) 2))
    gst_variance      := some (.vnum (pyRound (c.pGst - totalTax) 2))
    total_variance    := some (.vnum (pyRound (c.pIncl - totalAmount) 2)) }

/-- `recalculate_totals_and_variances` (helper.py 608-657). -/
def recalculate_totals_and_variances (r : Record) : Except Unit Record :=
  (totalsParse r).map (totalsBuild r)

/-! ## Canonical order/shape normalizer
(`reorder_invoice_data`, helper.py 446-489)

This function is generic over the record's fields (it reorders whatever
keys are present), so it is modelled over insertion-ordered dictionaries:
association lists with string keys.  Line items hold scalar values; the
top level additionally holds the `Line_Items` list. -/

/-- A line item as an insertion-ordered dictionary. -/
abbrev ItemDict := List (String × JVal)

/-- A top-level value: a scalar, or the `Line_Items` list. -/
inductive TVal where
  | prim  : JVal → TVal
  | items : List ItemDict → TVal
deriving DecidableEq, Repr

/-- The top-level record as an insertion-ordered dictionary. -/
abbrev TopDict := List (String × TVal)

/-- Dictionary lookup (`d[k]` / `k in d`): first entry with the key. -/
def dget {α : Type} : List (String × α) → String → Option α
  | [], _ => none
  | kv :: rest, k => if kv.1 = k then some kv.2 else dget rest k

/-- `a` if present, else `b` (`Option` fallback used in the lemmas). -/
def oOr {α : Type} (a b : Option α) : Option α :=
  match a with
  | some v => some v
  | none   => b

/-- The canonical top-level key sequence (helper.py 448-453). -/
def top_level_order : List String :=
  ["supplier_name", "store_name", "invoice_number", "invoice_date",
   "due_date", "purchase_order", "item_count", "discount_amount",
   "total_excl_tax", "shipping_cost", "total_tax", "rounding",
   "picking_charge", "total_amount", "published_subtotal_excl",
   "published_gst_total", "published_total_incl", "subtotal_variance",
   "gst_variance", "total_variance", "Line_Items"]

/-- The canonical line-item key sequence (helper.py 456-461). -/
def line_item_order : List String :=
  ["product_name", "product_code", "order_quantity", "order_unit",
   "order_unit_price_excl", "order_unit_price_incl", "order_unit_tax",
   "order_unit_size", "pack_size", "pack_unit",
   "gst_indicator", "line_total_excl", "line_total_incl", "line_total_tax"]

/-- The canonical-prefix loop: `for key in order: if key in d:
out[key] = d[key]`, with the source dictionary abstracted as a lookup
function `g`. -/
def canonFromGet {α : Type} (order : List String) (g : String → Option α) :
    List (String × α) :=
  order.filterMap (fun k => (g k).map (fun v => (k, v)))

/-- The trailing loop `for k in src: if k not in out: out[k] = src[k]`,
appending the not-yet-present entries in source order. -/
def addExtras {α : Type} (acc : List (String × α)) :
    List (String × α) → List (String × α)
  | [] => acc
  | kv :: rest =>
    if acc.any (fun p => p.1 = kv.1) then addExtras acc rest
    else addExtras (acc ++ [kv]) rest

/-- Reordering of one line item (helper.py 465-475): drop
`price/quantity`, canonical keys first, remaining keys appended. -/
def reorderItem (it : ItemDict) : ItemDict :=
  let it1 := it.filter (fun kv => kv.1 ≠ "price/quantity")
  addExtras (canonFromGet line_item_order (dget it1)) it1

/-- `data.get("Line_Items", [])` where the value is then iterated over
as a list of dictionaries (a scalar value raises). -/
def getLineItemsField (d : TopDict) : Except Unit (List ItemDict) :=
  match dget d "Line_Items" with
  | none                => .ok []
  | some (.items l)     => .ok l
  | some (.prim _)      => .error ()

/-- The top-level rebuild (helper.py 477-487), with the reordered items
already computed. -/
def reorderTopWith (d : TopDict) (items : List ItemDict) : TopDict :=
  let newItems := items.map reorderItem
  addExtras
    (canonFromGet top_level_order
      (fun k => if k = "Line_Items" then some (TVal.items newItems)
                else dget d k))
    d

/-- `reorder_invoice_data` (helper.py 446-489). -/
def reorder_invoice_data (d : TopDict) : Except Unit TopDict :=
  (getLineItemsField d).map (reorderTopWith d)

/-! ## Helper lemmas -/

/-- Rounding an integer is the identity. -/
theorem rhalfEven_intCast (n : ℤ) : rhalfEven (n : ℚ) = n := by
  simp [rhalfEven]

/-- Round-half-to-even moves a value by at most 1/2. -/
theorem abs_rhalfEven_sub_le (q : ℚ) : |(rhalfEven q : ℚ) - q| ≤ 1/2 := by
  have hf : ((⌊q⌋ : ℤ) : ℚ) ≤ q := Int.floor_le q
  have hf2 : q < (⌊q⌋ : ℚ) + 1 := Int.lt_floor_add_one q
  unfold rhalfEven
  split_ifs with h1 h2 h3 <;> rw [abs_le] <;> push_cast <;>
    constructor <;> linarith

/-- `pyRound` moves a value by at most half of the rounding grain. -/
theorem abs_pyRound_sub_le (q : ℚ) (n : ℕ) :
    |pyRound q n - q| ≤ 1 / (2 * 10 ^ n) := by
  have h := abs_rhalfEven_sub_le (q * 10 ^ n)
  have h10 : (0 : ℚ) < 10 ^ n := by positivity
  unfold pyRound
  have heq : (rhalfEven (q * 10 ^ n) : ℚ) / 10 ^ n - q =
      ((rhalfEven (q * 10 ^ n) : ℚ) - q * 10 ^ n) / 10 ^ n := by
    field_simp
    ring
  rw [heq, abs_div, abs_of_pos h10]
  calc |(rhalfEven (q * 10 ^ n) : ℚ) - q * 10 ^ n| / 10 ^ n
      ≤ (1 / 2) / 10 ^ n := by gcongr
    _ = 1 / (2 * 10 ^ n) := by ring

/-- `pyRound` at 4 decimals moves a value by at most `5e-5`. -/
theorem abs_pyRound4_sub_le (q : ℚ) : |pyRound q 4 - q| ≤ 1 / 20000 := by
  have h := abs_pyRound_sub_le q 4
  norm_num at h ⊢
  exact h

/-- A value already on the `10^-n` grid is fixed by `pyRound`. -/
theorem pyRound_idem (q : ℚ) (n : ℕ) :
    pyRound (pyRound q n) n = pyRound q n := by
  have h10 : (10 : ℚ) ^ n ≠ 0 := by positivity
  unfold pyRound
  rw [div_mul_cancel₀ _ h10, rhalfEven_intCast]

/-- Inversion of `Except.map` on a successful result. -/
theorem except_map_ok_iff {ε α β : Type} (f : α → β) (x : Except ε α)
    (b : β) : x.map f = Except.ok b ↔ ∃ a, x = Except.ok a ∧ b = f a := by
  cases x <;> simp [Except.map, eq_comm]

/-- Decidable equality for `Except` (used to evaluate the embedded
functions on concrete inputs). -/
def exceptDecEq {ε α : Type} [DecidableEq ε] [DecidableEq α] :
    (a b : Except ε α) → Decidable (a = b)
  | .ok x, .ok y =>
    if h : x = y then isTrue (h ▸ rfl)
    else isFalse (fun hh => h (by injection hh))
  | .error x, .error y =>
    if h : x = y then isTrue (h ▸ rfl)
    else isFalse (fun hh => h (by injection hh))
  | .ok _, .error _ => isFalse (fun hh => by injection hh)
  | .error _, .ok _ => isFalse (fun hh => by injection hh)

instance {ε α : Type} [DecidableEq ε] [DecidableEq α] :
    DecidableEq (Except ε α) := exceptDecEq

/-! ## Claim C1 -/

/-- Claim C1 (counterexample): a line item whose only populated total
field is the tax string `"$5"` is reconciled by `calculate_missing_fields`
to `line_total_excl = 0`, `line_total_incl = 0`, `line_total_tax = 5`,
so `|incl - (excl + tax)| = 5` and the claimed `1e-6` bound fails. -/
theorem C1_counterexample :
    (processItem none { line_total_tax := some (.vstr "$5") }).line_total_excl
        = some (.vnum 0) ∧
    (processItem none { line_total_tax := some (.vstr "$5") }).line_total_incl
        = some (.vnum 0) ∧
    (processItem none { line_total_tax := some (.vstr "$5") }).line_total_tax
        = some (.vnum 5) ∧
    ¬ (|(0 : ℚ) - (0 + 5)| < 1 / 1000000) := by
  refine ⟨by decide, by decide, by decide, by norm_num⟩

/-- Claim C1 (amended): after line-item reconciliation, every line item
whose processing completed without an exception satisfies
`|line_total_incl - (line_total_excl + line_total_tax)| ≤ 5e-5`
(half of the 4-decimal rounding grain) unless its reconciled
`line_total_excl` or `line_total_incl` is nonpositive (the completion
`if/elif` chain of helper.py 186-198 leaves such items untouched). -/
theorem completeExclIncl_bound (e i t : ℚ) :
    |(completeExclIncl e i t).2 - ((completeExclIncl e i t).1 + t)| ≤ 1 / 20000
      ∨ (completeExclIncl e i t).1 ≤ 0 ∨ (completeExclIncl e i t).2 ≤ 0 := by
  unfold completeExclIncl
  split_ifs with h1 h2 h3 h4 <;> dsimp only
  · left
    rw [h1.2]
    simp
  · left
    exact abs_pyRound4_sub_le (e + t)
  · left
    have hb := abs_pyRound4_sub_le (i - t)
    rw [abs_sub_comm] at hb
    have heq : i - (pyRound (i - t) 4 + t) = i - t - pyRound (i - t) 4 := by
      ring
    rw [heq]
    exact hb
  · left
    exact abs_pyRound4_sub_le (e + t)
  · rcases not_and_or.mp h4 with h | h
    · right; left; linarith [not_lt.mp h]
    · right; right; linarith [not_lt.mp h]

/-- Claim C1 (amended): after line-item reconciliation, every line item
whose processing completed without an exception satisfies
`|line_total_incl - (line_total_excl + line_total_tax)| ≤ 5e-5`
(half of the 4-decimal rounding grain) unless its reconciled
`line_total_excl` or `line_total_incl` is nonpositive (the completion
`if/elif` chain of helper.py 186-198 leaves such items untouched). -/
theorem C1_reconciled_invariant (s : Option JVal) (it it' : LineItem)
    (h : processItemCore s it = .ok it') (e i t : ℚ)
    (he : it'.line_total_excl = some (.vnum e))
    (hi : it'.line_total_incl = some (.vnum i))
    (ht : it'.line_total_tax = some (.vnum t)) :
    |i - (e + t)| ≤ 1 / 20000 ∨ e ≤ 0 ∨ i ≤ 0 := by
  rw [processItemCore, except_map_ok_iff] at h
  obtain ⟨⟨it1, e0, i0, t4, q⟩, -, hfin⟩ := h
  subst hfin
  simp only [finishItem, Option.some.injEq, JVal.vnum.injEq] at he hi ht
  subst he hi ht
  exact completeExclIncl_bound e0 i0 t4

/-- Concrete input for the C1 witness. -/
def itemC1w : LineItem :=
  { line_total_excl := some (.vstr "100"), line_total_tax := some (.vstr "10%") }

/-- Reconciled form of `itemC1w`. -/
def itemC1w' : LineItem := processItem none itemC1w

/-- Witness for C1: the item with excl `"100"` and tax `"10%"` is
reconciled successfully to `(100, 110, 10)`, which satisfies the bound. -/
theorem C1_witness :
    processItemCore none itemC1w = .ok itemC1w' ∧
    (|(110 : ℚ) - (100 + 10)| ≤ 1 / 20000 ∨ (100 : ℚ) ≤ 0 ∨ (110 : ℚ) ≤ 0) := by
  have h : processItemCore none itemC1w = .ok itemC1w' := by decide
  exact ⟨h, C1_reconciled_invariant none itemC1w itemC1w' h 100 110 10
    (by decide) (by decide) (by decide)⟩

/-! ## Claim C2 -/

/-- Tax resolution including the 4-decimal rounding of helper.py 184
(the composition of lines 153-181 with `round(tax_amt, 4)`). -/
def resolveTaxRounded (tax : Option JVal) (excl incl : ℚ) : Except Unit ℚ :=
  (resolveTax tax excl incl).map (fun q => pyRound q 4)

/-- Concrete input for the C2 counterexample: positive excl and incl with
an unparseable tax string. -/
def itemC2 : LineItem :=
  { line_total_excl := some (.vnum 5), line_total_incl := some (.vnum 10),
    line_total_tax := some (.vstr "abc") }

/-- Claim C2 (counterexample): for an unparseable tax string `"abc"` with
excl = 5 and incl = 10 (both positive), the claimed resolution
`tax = incl - excl = 5` does not happen: `float("abc")` raises, the whole
item is skipped unchanged, and the raw string survives. -/
theorem C2_counterexample :
    resolveTax (some (.vstr "abc")) 5 10 = .error () ∧
    ¬ resolveTax (some (.vstr "abc")) 5 10 = .ok 5 ∧
    processItem none itemC2 = itemC2 ∧
    itemC2.line_total_tax = some (.vstr "abc") := by
  refine ⟨by decide, by decide, by decide, rfl⟩

/-- Claim C2 (amended): the tax classification of helper.py 153-184.  A
percent-suffixed string gives `excl * pct / 100`; otherwise a `$`-marked
string gives the literal amount; otherwise a parseable plain string gives
the literal value when it contains a decimal point, is treated as a
percentage when it is integer-valued, and is the literal value otherwise;
an *unparseable* plain string raises (the item is then skipped by the
per-item handler, not resolved to `incl - excl`); an absent, `null` or
*non-string* tax gives `incl - excl` when both are positive, else `0`.
Every resolved value is rounded to 4 decimal places. -/
theorem C2_tax_resolution (e i : ℚ) :
    (∀ t, (t = none ∨ t = some .vnull ∨ ∃ q, t = some (.vnum q)) →
      resolveTaxRounded t e i =
        .ok (pyRound (if 0 < i ∧ 0 < e then i - e else 0) 4)) ∧
    (∀ s p, containsChar s '%' = true →
      pyFloat (stripBoth s '%') = some p →
      resolveTaxRounded (some (.vstr s)) e i = .ok (pyRound (e * p / 100) 4)) ∧
    (∀ s a, containsChar s '%' = false → containsChar s '$' = true →
      pyFloat (stripBoth s '$') = some a →
      resolveTaxRounded (some (.vstr s)) e i = .ok (pyRound a 4)) ∧
    (∀ s v, containsChar s '%' = false → containsChar s '$' = false →
      pyFloat s = some v →
      resolveTaxRounded (some (.vstr s)) e i =
        .ok (pyRound (if containsChar s '.' = true then v
                      else if v.den = 1 then e * (v / 100) else v) 4)) ∧
    (∀ s, containsChar s '%' = false → containsChar s '$' = false →
      pyFloat s = none →
      resolveTaxRounded (some (.vstr s)) e i = .error ()) := by
  refine ⟨?_, ?_, ?_, ?_, ?_⟩
  · rintro t (rfl | rfl | ⟨q, rfl⟩) <;>
      simp only [resolveTaxRounded, resolveTax] <;> split_ifs <;> rfl
  · intro s p hpc hp
    simp [resolveTaxRounded, resolveTax, hpc, hp, Except.map]
  · intro s a hpc hd hp
    simp [resolveTaxRounded, resolveTax, hpc, hd, hp, Except.map]
  · intro s v hpc hd hp
    by_cases hdot : containsChar s '.' = true <;>
      by_cases hden : v.den = 1 <;>
        simp [resolveTaxRounded, resolveTax, hpc, hd, hp, hdot, hden,
              Except.map]
  · intro s hpc hd hp
    simp [resolveTaxRounded, resolveTax, hpc, hd, hp, Except.map]

/-- Witness for C2: the percent branch at `"10%"` with excl 100, and the
raising branch at `"abc"`. -/
theorem C2_witness :
    resolveTaxRounded (some (.vstr "10%")) 100 0 = .ok (pyRound 10 4) ∧
    resolveTaxRounded (some (.vstr "abc")) 100 200 = .error () := by
  constructor
  · have h := (C2_tax_resolution 100 0).2.1 "10%" 10 (by decide) (by decide)
    rw [h]
    norm_num
  · exact (C2_tax_resolution 100 200).2.2.2.2 "abc" (by decide) (by decide)
      (by decide)

/-! ## Claim C3 -/

/-- Concrete input for the C3 counterexample: both totals populated and
positive, resolved tax 0, with excl ≠ incl. -/
def itemC3 : LineItem :=
  { line_total_excl := some (.vnum 100), line_total_incl := some (.vnum 110),
    line_total_tax := some (.vstr "$0.00") }

/-- Claim C3 (counterexample): with excl = 100 > 0, incl = 110 > 0 and
tax resolving to 0, the claimed case (d) (both positive ⇒ excl
authoritative, incl := excl + tax = 100) does not happen: case (a) fires
first and *overwrites excl with incl*, giving excl = incl = 110. -/
theorem C3_counterexample :
    (processItem none itemC3).line_total_excl = some (.vnum 110) ∧
    (processItem none itemC3).line_total_incl = some (.vnum 110) ∧
    (processItem none itemC3).line_total_tax = some (.vnum 0) ∧
    ¬ (processItem none itemC3).line_total_incl = some (.vnum 100) ∧
    ¬ (processItem none itemC3).line_total_excl = some (.vnum 100) := by
  refine ⟨by decide, by decide, by decide, by decide, by decide⟩

/-- Claim C3 (amended): the four completion cases of helper.py 186-198
are an ordered `if/elif` chain, not mutually exclusive rules: (a)
`incl>0 ∧ tax=0 ⇒ excl := incl` fires first and takes precedence over
(d), so when both totals are positive and tax is zero *incl* is
authoritative; (b) `excl>0 ∧ incl=0 ⇒ incl := round₄(excl+tax)`; (c)
`incl>0 ∧ excl=0 ∧ tax≠0 ⇒ excl := round₄(incl−tax)`; (d)
`excl>0 ∧ incl>0 ∧ tax≠0 ⇒ incl := round₄(excl+tax)`; when both totals
are nonpositive nothing changes.  In particular incl = 110, tax = 0
forces excl = 110. -/
theorem C3_completion_cases (e i t : ℚ) :
    (0 < i ∧ t = 0 → completeExclIncl e i t = (i, i)) ∧
    (0 < e ∧ i = 0 → completeExclIncl e i t = (e, pyRound (e + t) 4)) ∧
    (0 < i ∧ e = 0 ∧ t ≠ 0 →
      completeExclIncl e i t = (pyRound (i - t) 4, i)) ∧
    (0 < e ∧ 0 < i ∧ t ≠ 0 →
      completeExclIncl e i t = (e, pyRound (e + t) 4)) ∧
    (e ≤ 0 ∧ i ≤ 0 → completeExclIncl e i t = (e, i)) := by
  refine ⟨?_, ?_, ?_, ?_, ?_⟩
  · intro h
    unfold completeExclIncl
    split_ifs with h1 h2 h3 h4 <;> first | rfl | exact absurd h h1
  · intro h
    unfold completeExclIncl
    split_ifs with h1 h2 h3 h4 <;>
      first
      | rfl
      | (exfalso; linarith [h1.1, h.2])
      | exact absurd h h2
  · intro h
    unfold completeExclIncl
    split_ifs with h1 h2 h3 h4 <;>
      first
      | rfl
      | exact absurd h1.2 h.2.2
      | (exfalso; linarith [h2.1, h.2.1])
      | exact absurd ⟨h.1, h.2.1⟩ h3
  · intro h
    unfold completeExclIncl
    split_ifs with h1 h2 h3 h4 <;>
      first
      | rfl
      | exact absurd h1.2 h.2.2
      | (exfalso; linarith [h2.2, h.2.1])
      | (exfalso; linarith [h3.2, h.1])
      | exact absurd ⟨h.1, h.2.1⟩ h4
  · intro h
    unfold completeExclIncl
    split_ifs with h1 h2 h3 h4 <;>
      first
      | rfl
      | (exfalso; linarith [h1.1, h.2])
      | (exfalso; linarith [h2.1, h.1])
      | (exfalso; linarith [h3.1, h.2])
      | (exfalso; linarith [h4.1, h.1])

/-- Witness for C3: case (a) at `(0, 110, 0)` — the scenario-B input —
forces excl := incl = 110. -/
theorem C3_witness :
    completeExclIncl 0 110 0 = (110, 110) ∧ (0 : ℚ) < 110 := by
  refine ⟨(C3_completion_cases 0 110 0).1 ⟨by norm_num, rfl⟩, by norm_num⟩

/-! ## Claim C4 -/

/-- Claim C4: the pattern list is evaluated in order with the first match
winning.  For `"6X1KG BUTTER"` the name-based extractor yields
`order_unit_size = 6`, `pack_size = 1.0`, `pack_unit = "KG"`; the match
is the combined qty×size×unit pattern (`qtyxsize_unit`); the only pattern
before it (the `GM` pattern) does not match the name at all; and the
later single-unit pattern (`kg_single`) does match the name but with the
different result `order_unit_size = 1` — so the pattern order is what
selects the combined reading. -/
theorem C4_pack_pattern_precedence :
    extractPackItemName { product_name := some (.vstr "6X1KG BUTTER") } =
      .ok { product_name := some (.vstr "6X1KG BUTTER"),
            order_unit_size := some (.vnum 6),
            pack_size := some (.vnum 1),
            pack_unit := some (.vstr "KG") } ∧
    (firstPatMatch "6X1KG BUTTER").map Prod.fst =
      some PatTy.qtyxsize_unit ∧
    (∀ p ∈ pack_patterns, p.2 = PatTy.gm_raw_pattern →
      reSearch p.1 "6X1KG BUTTER" = none) ∧
    (∀ p ∈ pack_patterns, p.2 = PatTy.kg_single →
      (reSearch p.1 "6X1KG BUTTER").map (applyPattern PatTy.kg_single) =
        some (.ok (1, 1, "KG"))) := by
  refine ⟨by decide, by decide, by decide, by decide⟩

/-! ## Claim C5 -/

/-- Concrete input for the C5 counterexample: PNM supplier, one item
whose `price/quantity` is a string without a `/`. -/
def recC5 : Record :=
  { supplier_name := some (.vstr "pnm sydney pty ltd"),
    Line_Items := [{ price_quantity := some (.vstr "$37.90") }] }

/-- The item produced for `recC5`: all three pack fields set to `null`. -/
def itemC5out : LineItem :=
  { price_quantity := some (.vstr "$37.90"),
    order_unit_size := some .vnull, pack_size := some .vnull,
    pack_unit := some .vnull }

/-- Claim C5 (counterexample): for supplier `"pnm sydney pty ltd"` with
`price/quantity = "$37.90"` (no `/`), `extract_pack_details` sets all
three pack fields to `null`, so they are not populated with the claimed
defaults. -/
theorem C5_counterexample :
    extract_pack_details recC5 = .ok { recC5 with Line_Items := [itemC5out] } ∧
    itemC5out.pack_unit = some .vnull ∧
    itemC5out.order_unit_size = some .vnull ∧
    itemC5out.pack_size = some .vnull ∧
    ¬ itemC5out.pack_unit = some (.vstr "EA") := by
  refine ⟨by decide, rfl, rfl, rfl, by decide⟩

/-- Per-item population for the name-based branch: a successful
extraction always writes a number, a number, and a string into the three
pack fields. -/
theorem extractPackItemName_populated (it it' : LineItem)
    (h : extractPackItemName it = .ok it') :
    (∃ a, it'.order_unit_size = some (.vnum a)) ∧
    (∃ b, it'.pack_size = some (.vnum b)) ∧
    (∃ c, it'.pack_unit = some (.vstr c)) := by
  unfold extractPackItemName at h
  cases hg : getStrD it.product_name with
  | error e =>
    simp only [hg] at h
    all_goals exact Except.noConfusion h
  | ok name =>
    simp only [hg] at h
    cases hm : firstPatMatch name with
    | none =>
      simp only [hm, Except.ok.injEq] at h
      subst h
      exact ⟨⟨1, rfl⟩, ⟨1, rfl⟩, ⟨"EA", rfl⟩⟩
    | some tc =>
      simp only [hm] at h
      cases ha : applyPattern tc.1 tc.2 with
      | error e =>
        simp only [ha] at h
        all_goals exact Except.noConfusion h
      | ok r =>
        simp only [ha, Except.ok.injEq] at h
        subst h
        exact ⟨⟨r.1, rfl⟩, ⟨r.2.1, rfl⟩, ⟨r.2.2, rfl⟩⟩

/-- Population lifted over the item loop (non-PNM supplier). -/
theorem extractPackItems_populated (sup : Option JVal)
    (hs : supplierIsPNM sup = .ok false) :
    ∀ its l, extractPackItems sup its = .ok l →
      ∀ it' ∈ l,
        (∃ a, it'.order_unit_size = some (.vnum a)) ∧
        (∃ b, it'.pack_size = some (.vnum b)) ∧
        (∃ c, it'.pack_unit = some (.vstr c)) := by
  intro its
  induction its with
  | nil =>
    intro l h it' hmem
    simp only [extractPackItems] at h
    cases h
    cases hmem
  | cons it rest ih =>
    intro l h it' hmem
    simp only [extractPackItems, hs, Bool.false_eq_true, if_false] at h
    cases hit : extractPackItemName it with
    | error e =>
      simp only [hit] at h
      all_goals exact Except.noConfusion h
    | ok x =>
      simp only [hit] at h
      cases hrest : extractPackItems sup rest with
      | error e =>
        simp only [hrest] at h
        all_goals exact Except.noConfusion h
      | ok xs =>
        simp only [hrest, Except.ok.injEq] at h
        subst h
        cases hmem with
        | head => exact extractPackItemName_populated it it' hit
        | tail b hmem => exact ih xs hrest it' hmem

/-- Claim C5 (amended): for every record whose supplier is *not*
`"pnm sydney pty ltd"`, a successful `extract_pack_details` leaves every
line item with all three pack fields populated and non-null (a number,
a number, and a string), and an item whose product name matches no
pattern gets exactly the defaults `1 / 1.0 / "EA"`.  (For the PNM
supplier the fields can be left absent or set to `null` — see the
counterexample.) -/
theorem C5_pack_defaults :
    (∀ r r', supplierIsPNM r.supplier_name = .ok false →
      extract_pack_details r = .ok r' →
      ∀ it' ∈ r'.Line_Items,
        (∃ a, it'.order_unit_size = some (.vnum a)) ∧
        (∃ b, it'.pack_size = some (.vnum b)) ∧
        (∃ c, it'.pack_unit = some (.vstr c))) ∧
    (∀ it it' s, extractPackItemName it = .ok it' →
      getStrD it.product_name = .ok s → firstPatMatch s = none →
      it'.order_unit_size = some (.vnum 1) ∧
      it'.pack_size = some (.vnum 1) ∧
      it'.pack_unit = some (.vstr "EA")) := by
  constructor
  · intro r r' hs h
    rw [extract_pack_details, except_map_ok_iff] at h
    obtain ⟨l, hl, rfl⟩ := h
    intro it' hmem
    exact extractPackItems_populated r.supplier_name hs r.Line_Items l hl
      it' hmem
  · intro it it' s h hg hm
    unfold extractPackItemName at h
    simp only [hg, hm, Except.ok.injEq] at h
    subst h
    exact ⟨rfl, rfl, rfl⟩

/-- Concrete record for the C5 witness. -/
def recC5w : Record :=
  { supplier_name := some (.vstr "ACME Foods"),
    Line_Items := [{ product_name := some (.vstr "WIDGET") }] }

/-- Expected output item for the C5 witness: the defaults. -/
def itC5wOut : LineItem :=
  { product_name := some (.vstr "WIDGET"),
    order_unit_size := some (.vnum 1), pack_size := some (.vnum 1),
    pack_unit := some (.vstr "EA") }

/-- Witness for C5: the non-PNM record with product name `"WIDGET"` (no
pattern matches) gets the defaults `1 / 1.0 / "EA"`. -/
theorem C5_witness :
    supplierIsPNM recC5w.supplier_name = .ok false ∧
    extract_pack_details recC5w = .ok { recC5w with Line_Items := [itC5wOut] } ∧
    ((∃ a, itC5wOut.order_unit_size = some (.vnum a)) ∧
     (∃ b, itC5wOut.pack_size = some (.vnum b)) ∧
     (∃ c, itC5wOut.pack_unit = some (.vstr c))) ∧
    (itC5wOut.order_unit_size = some (.vnum 1) ∧
     itC5wOut.pack_size = some (.vnum 1) ∧
     itC5wOut.pack_unit = some (.vstr "EA")) := by
  have hs : supplierIsPNM recC5w.supplier_name = .ok false := by decide
  have h : extract_pack_details recC5w =
      .ok { recC5w with Line_Items := [itC5wOut] } := by decide
  refine ⟨hs, h, ?_, ?_⟩
  · exact C5_pack_defaults.1 recC5w { recC5w with Line_Items := [itC5wOut] }
      hs h itC5wOut (by simp)
  · exact C5_pack_defaults.2 { product_name := some (.vstr "WIDGET") }
      itC5wOut "WIDGET" (by decide) (by decide) (by decide)

/-! ## Claim C6 -/

/-- Claim C6: the PNM published-total reconciliation is idempotent.  For
every record whose line-item sums and published fields coerce (i.e. the
first application does not raise), the first application succeeds and
produces `reconBuild`, and applying `reconcile_published_totals` to that
result returns it unchanged. -/
theorem C6_reconcile_idempotent (r : Record) (sE sT sI pS pG pI : ℚ)
    (h1 : sumField LineItem.line_total_excl r.Line_Items = .ok sE)
    (h2 : sumField LineItem.line_total_tax r.Line_Items = .ok sT)
    (h3 : sumField LineItem.line_total_incl r.Line_Items = .ok sI)
    (h4 : coerceGet0 r.published_subtotal_excl = .ok pS)
    (h5 : coerceGet0 r.published_gst_total = .ok pG)
    (h6 : coerceGet0 r.published_total_incl = .ok pI) :
    reconcile_published_totals r =
      .ok (reconBuild r ⟨sE, sT, sI, pS, pG, pI⟩) ∧
    reconcile_published_totals (reconBuild r ⟨sE, sT, sI, pS, pG, pI⟩) =
      .ok (reconBuild r ⟨sE, sT, sI, pS, pG, pI⟩) := by
  have hS : (if pyRound pS 2 = pyRound sE 2 then pyRound pS 2
             else pyRound sE 2) = pyRound sE 2 := by
    split_ifs with hh
    exacts [hh, rfl]
  have hG : (if pyRound pG 2 = pyRound sT 2 then pyRound pG 2
             else pyRound sT 2) = pyRound sT 2 := by
    split_ifs with hh
    exacts [hh, rfl]
  have hI : (if pyRound pI 2 = pyRound sI 2 then pyRound pI 2
             else pyRound sI 2) = pyRound sI 2 := by
    split_ifs with hh
    exacts [hh, rfl]
  have hB : reconBuild r ⟨sE, sT, sI, pS, pG, pI⟩ =
      { r with published_subtotal_excl := some (.vnum (pyRound sE 2)),
               published_gst_total := some (.vnum (pyRound sT 2)),
               published_total_incl := some (.vnum (pyRound sI 2)) } := by
    simp only [reconBuild, hS, hG, hI]
  constructor
  · simp only [reconcile_published_totals, reconParse, h1, h2, h3, h4, h5,
      h6, Except.map]
  · rw [hB]
    simp [reconcile_published_totals, reconParse, h1, h2, h3, coerceGet0,
      reconBuild, pyRound_idem, Except.map]

/-- Concrete record for the C6 witness. -/
def recC6 : Record :=
  { published_subtotal_excl := some (.vnum 10),
    Line_Items := [{ line_total_excl := some (.vnum 10),
                     line_total_tax := some (.vnum 1),
                     line_total_incl := some (.vnum 11) }] }

/-- Witness for C6: a record with one fully numeric line item. -/
theorem C6_witness :
    reconcile_published_totals recC6 =
      .ok (reconBuild recC6 ⟨10, 1, 11, 10, 0, 0⟩) ∧
    reconcile_published_totals (reconBuild recC6 ⟨10, 1, 11, 10, 0, 0⟩) =
      .ok (reconBuild recC6 ⟨10, 1, 11, 10, 0, 0⟩) :=
  C6_reconcile_idempotent recC6 10 1 11 10 0 0 (by decide) (by decide)
    (by decide) (by decide) (by decide) (by decide)

/-! ## Claim C7 -/

/-- Claim C7: for every record whose fields coerce, the totals aggregator
computes `total_excl_tax = Σ line_total_excl + shipping + picking +
discount`, `total_tax = Σ line_total_tax + (shipping+picking+discount)
× 0.10`, `total_amount = total_excl_tax + total_tax` (each stored rounded
to 2 decimals), each variance as `published − computed` rounded to 2
decimals with its sign, and never overwrites the three published
fields. -/
theorem C7_totals_and_variances (r : Record) (S s p d : ℚ) (sup : String)
    (T P1 P2 P3 : ℚ)
    (h1 : sumField LineItem.line_total_excl r.Line_Items = .ok S)
    (h2 : coerceGet0 r.shipping_cost = .ok s)
    (h3 : coerceGet0 r.picking_charge = .ok p)
    (h4 : coerceGet0 r.discount_amount = .ok d)
    (h5 : getSupplierStr r.supplier_name = .ok sup)
    (h6 : sumField LineItem.line_total_tax r.Line_Items = .ok T)
    (h7 : coerceGet0 r.published_subtotal_excl = .ok P1)
    (h8 : coerceGet0 r.published_gst_total = .ok P2)
    (h9 : coerceGet0 r.published_total_incl = .ok P3) :
    recalculate_totals_and_variances r =
      .ok (totalsBuild r ⟨S, s, p, d, sup, T, P1, P2, P3⟩) ∧
    (totalsBuild r ⟨S, s, p, d, sup, T, P1, P2, P3⟩).total_excl_tax =
      some (.vnum (pyRound (S + (s + p + d)) 2)) ∧
    (totalsBuild r ⟨S, s, p, d, sup, T, P1, P2, P3⟩).total_tax =
      some (.vnum (pyRound (T + (s + p + d) * (1/10)) 2)) ∧
    (totalsBuild r ⟨S, s, p, d, sup, T, P1, P2, P3⟩).total_amount =
      some (.vnum (pyRound ((S + (s + p + d)) + (T + (s + p + d) * (1/10))) 2)) ∧
    (totalsBuild r ⟨S, s, p, d, sup, T, P1, P2, P3⟩).subtotal_variance =
      some (.vnum (pyRound (P1 - (S + (s + p + d))) 2)) ∧
    (totalsBuild r ⟨S, s, p, d, sup, T, P1, P2, P3⟩).gst_variance =
      some (.vnum (pyRound (P2 - (T + (s + p + d) * (1/10))) 2)) ∧
    (totalsBuild r ⟨S, s, p, d, sup, T, P1, P2, P3⟩).total_variance =
      some (.vnum (pyRound (P3 - ((S + (s + p + d)) + (T + (s + p + d) * (1/10)))) 2)) ∧
    (totalsBuild r ⟨S, s, p, d, sup, T, P1, P2, P3⟩).published_subtotal_excl =
      r.published_subtotal_excl ∧
    (totalsBuild r ⟨S, s, p, d, sup, T, P1, P2, P3⟩).published_gst_total =
      r.published_gst_total ∧
    (totalsBuild r ⟨S, s, p, d, sup, T, P1, P2, P3⟩).published_total_incl =
      r.published_total_incl := by
  refine ⟨?_, rfl, rfl, rfl, rfl, rfl, rfl, ?_, ?_, ?_⟩
  · simp only [recalculate_totals_and_variances, totalsParse, h1, h2, h3,
      h4, h5, h6, h7, h8, h9, Except.map]
  · simp only [totalsBuild]
    split_ifs <;> rfl
  · simp only [totalsBuild]
    split_ifs <;> rfl
  · simp only [totalsBuild]
    split_ifs <;> rfl

/-- Concrete record for the C7 witness: published total 1000, computed
total 995. -/
def recC7 : Record :=
  { published_total_incl := some (.vnum 1000),
    Line_Items := [{ line_total_excl := some (.vnum 900),
                     line_total_tax := some (.vnum 95) }] }

/-- Witness for C7: published 1000 − computed 995 gives variance 5.00
with the sign preserved, and the published field survives. -/
theorem C7_witness :
    recalculate_totals_and_variances recC7 =
      .ok (totalsBuild recC7 ⟨900, 0, 0, 0, "", 95, 0, 0, 1000⟩) ∧
    (totalsBuild recC7 ⟨900, 0, 0, 0, "", 95, 0, 0, 1000⟩).total_variance =
      some (.vnum 5) ∧
    (totalsBuild recC7 ⟨900, 0, 0, 0, "", 95, 0, 0, 1000⟩).published_total_incl =
      some (.vnum 1000) := by
  have h := C7_totals_and_variances recC7 900 0 0 0 "" 95 0 0 1000
    (by decide) (by decide) (by decide) (by decide) (by decide) (by decide)
    (by decide) (by decide) (by decide)
  refine ⟨h.1, ?_, ?_⟩
  · rw [h.2.2.2.2.2.2.1]
    decide
  · rw [h.2.2.2.2.2.2.2.2.2]
    decide

/-! ## Claim C8 -/

/-- The PNM supplier value. -/
def supPNM : Option JVal := some (.vstr "pnm sydney pty ltd")

/-- Concrete input for the C8 counterexample: a PNM item whose quantity
reinterpretation succeeds but whose tax string then fails to parse. -/
def itemC8 : LineItem :=
  { order_quantity := some (.vnum 2),
    price_quantity := some (.vstr "$20/2"),
    line_total_excl := some (.vnum 5),
    line_total_tax := some (.vstr "abc") }

/-- Claim C8 (counterexample): for the PNM supplier, the quantity
reinterpretation mutates `order_quantity` (2 → 4) *before* the tax
resolution raises on `"abc"`; the exception is caught but the item is
left with the mutated quantity, not in its prior state. -/
theorem C8_counterexample :
    processItemCore supPNM itemC8 =
      .error { itemC8 with order_quantity := some (.vnum 4) } ∧
    processItem supPNM itemC8 =
      { itemC8 with order_quantity := some (.vnum 4) } ∧
    ¬ processItem supPNM itemC8 = itemC8 ∧
    calculate_missing_fields { supplier_name := supPNM, Line_Items := [itemC8] } =
      { supplier_name := supPNM,
        Line_Items := [{ itemC8 with order_quantity := some (.vnum 4) }] } := by
  refine ⟨by decide, by decide, by decide, by decide⟩

/-- The per-item loop is a map. -/
theorem calcItemsLoop_eq_map (s : Option JVal) (l : List LineItem) :
    calcItemsLoop s l = l.map (processItem s) := by
  induction l with
  | nil => rfl
  | cons a t ih => simp [calcItemsLoop, ih]

/-- Claim C8 (amended): `calculate_missing_fields` never raises and
touches only `Line_Items`; each output item depends only on its own input
item (failure isolation at item granularity, all remaining items still
processed); an item whose processing raises is caught and left in its
state *as of the failure point* — which may differ from its prior state,
because the PNM quantity reinterpretation can already have written
`order_quantity` (see the counterexample); an item processed without an
exception gets the fully updated fields. -/
theorem C8_item_failure_isolation :
    (∀ r, calculate_missing_fields r =
      { r with Line_Items := r.Line_Items.map (processItem r.supplier_name) }) ∧
    (∀ s it fi, processItemCore s it = .error fi → processItem s it = fi) ∧
    (∀ s it ok', processItemCore s it = .ok ok' → processItem s it = ok') := by
  refine ⟨?_, ?_, ?_⟩
  · intro r
    unfold calculate_missing_fields
    rw [calcItemsLoop_eq_map]
  · intro s it fi h
    unfold processItem
    rw [h]
  · intro s it ok' h
    unfold processItem
    rw [h]

/-- C8 witness inputs: an item that fails mid-processing and one that
succeeds. -/
def itemC8w : LineItem :=
  { order_quantity := some (.vnum 3),
    price_quantity := some (.vstr "$30/2"),
    line_total_excl := some (.vnum 5),
    line_total_tax := some (.vstr "xyz") }

/-- A line item whose processing succeeds. -/
def itemC8ok : LineItem := { line_total_excl := some (.vnum 10) }

/-- Successful reconciliation of `itemC8ok`. -/
def itemC8ok' : LineItem := processItem none itemC8ok

/-- A one-item record for the C8 witness. -/
def recC8w : Record := { supplier_name := none, Line_Items := [itemC8ok] }

/-- Witness for C8: the frame equation at a concrete record, the caught
failure at a concrete failing item, and the success case at a concrete
successful item. -/
theorem C8_witness :
    calculate_missing_fields recC8w =
      { recC8w with
        Line_Items := recC8w.Line_Items.map (processItem recC8w.supplier_name) } ∧
    processItem supPNM itemC8w =
      { itemC8w with order_quantity := some (.vnum 9) } ∧
    processItem none itemC8ok = itemC8ok' := by
  refine ⟨C8_item_failure_isolation.1 recC8w, ?_, ?_⟩
  · exact C8_item_failure_isolation.2.1 supPNM itemC8w
      { itemC8w with order_quantity := some (.vnum 9) } (by decide)
  · exact C8_item_failure_isolation.2.2 none itemC8ok itemC8ok' (by decide)

/-! ## Claim C10 -/

/-- Concrete input for the C10 counterexample: both fields coerce to
floats, but the quantity is zero. -/
def itemC10 : LineItem :=
  { line_total_excl := some (.vnum 10), order_quantity := some (.vnum 0),
    order_unit := some (.vstr "BOX"),
    gst_indicator := some (.vstr "NO GST") }

/-- Claim C10 (counterexample): with `line_total_excl = 10` and
`order_quantity = 0` — both of which coerce to floats — the division by
the quantity raises `ZeroDivisionError`, the per-item handler catches it,
and the item keeps its previous `order_unit = "BOX"` and
`gst_indicator = "NO GST"`: nothing is overwritten. -/
theorem C10_counterexample :
    coerceGet0 itemC10.line_total_excl = .ok 10 ∧
    coerceGet1 itemC10.order_quantity = .ok 0 ∧
    anchorItemCore itemC10 = .error () ∧
    anchorItem itemC10 = itemC10 ∧
    ¬ (anchorItem itemC10).order_unit = some (.vstr "EA") ∧
    ¬ (anchorItem itemC10).gst_indicator = some (.vstr "GST") := by
  refine ⟨by decide, by decide, by decide, by decide, by decide, by decide⟩

/-- Claim C10 (amended): for every line item whose `line_total_excl` and
`order_quantity` coerce to floats *and whose coerced quantity is nonzero*,
the Anchor Packaging rule overwrites `order_unit` with `"EA"` and
`gst_indicator` with `"GST"`, discarding whatever was there (the input
item is arbitrary).  When the quantity is zero the division raises and
the item is left untouched. -/
theorem C10_anchor_overwrites (it : LineItem) (e q : ℚ)
    (h1 : coerceGet0 it.line_total_excl = .ok e)
    (h2 : coerceGet1 it.order_quantity = .ok q)
    (h3 : q ≠ 0) :
    (anchorItem it).order_unit = some (.vstr "EA") ∧
    (anchorItem it).gst_indicator = some (.vstr "GST") := by
  unfold anchorItem anchorItemCore
  simp only [h1, h2, if_neg h3]
  refine ⟨?_, ?_⟩ <;> trivial

/-- Concrete input for the C10 witness: previously extracted unit label
`"CTN"` and a `NO GST` classification, quantity 2. -/
def itemC10w : LineItem :=
  { line_total_excl := some (.vnum 10), order_quantity := some (.vnum 2),
    order_unit := some (.vstr "CTN"),
    gst_indicator := some (.vstr "NO GST") }

/-- Witness for C10: the rule overwrites the unit label and the GST
classification of `itemC10w`. -/
theorem C10_witness :
    (anchorItem itemC10w).order_unit = some (.vstr "EA") ∧
    (anchorItem itemC10w).gst_indicator = some (.vstr "GST") :=
  C10_anchor_overwrites itemC10w 10 2 (by decide) (by decide) (by norm_num)

/-! ## Claim C9 -/

/-- Lookup over a concatenation falls back to the right part. -/
theorem dget_append {α : Type} (l1 l2 : List (String × α)) (k : String) :
    dget (l1 ++ l2) k = oOr (dget l1 k) (dget l2 k) := by
  induction l1 with
  | nil => simp [dget, oOr]
  | cons kv rest ih =>
    by_cases hk : kv.1 = k <;> simp [dget, hk, oOr, ih]

/-- A key is absent exactly when no entry carries it. -/
theorem dget_none_iff {α : Type} (l : List (String × α)) (k : String) :
    dget l k = none ↔ ∀ kv ∈ l, kv.1 ≠ k := by
  induction l with
  | nil => simp [dget]
  | cons kv rest ih =>
    by_cases hk : kv.1 = k <;> simp [dget, hk, ih]

/-- Lookup through a filter whose predicate only inspects the key. -/
theorem dget_filter_key {α : Type} (l : List (String × α))
    (pred : String → Bool) (k : String) :
    dget (l.filter (fun kv => pred kv.1)) k =
      if pred k then dget l k else none := by
  induction l with
  | nil => simp [dget]
  | cons kv rest ih =>
    by_cases hp : pred kv.1
    · by_cases hk : kv.1 = k
      · subst hk
        simp [List.filter_cons, hp, dget]
      · simp [List.filter_cons, hp, dget, hk, ih]
    · by_cases hk : kv.1 = k
      · subst hk
        simp [List.filter_cons, hp, ih]
      · simp [List.filter_cons, hp, ih, dget, hk]

/-- Lookup in the canonical-prefix part: present exactly for the keys of
the order that the source lookup provides. -/
theorem dget_canonFromGet {α : Type} (g : String → Option α) (k : String) :
    ∀ order : List String,
      dget (canonFromGet order g) k = if k ∈ order then g k else none := by
  intro order
  induction order with
  | nil => simp [canonFromGet, dget]
  | cons o os ih =>
    by_cases hk : k = o
    · subst hk
      cases hg : g k with
      | none =>
        simp only [canonFromGet, List.filterMap_cons, hg, Option.map_none']
        rw [show (canonFromGet os g) = os.filterMap
              (fun k' => (g k').map (fun v => (k', v))) from rfl] at ih
        rw [ih]
        split_ifs <;> simp [hg]
      | some v =>
        simp [canonFromGet, List.filterMap_cons, hg, dget]
    · cases hg : g o with
      | none =>
        simpa [canonFromGet, List.filterMap_cons, hg, hk] using ih
      | some v =>
        simpa [canonFromGet, List.filterMap_cons, hg, dget,
          Ne.symm hk, hk] using ih

/-- Entries of the canonical-prefix part carry keys of the order and the
values the source lookup gives them. -/
theorem mem_canonFromGet {α : Type} (order : List String)
    (g : String → Option α) (kv : String × α)
    (h : kv ∈ canonFromGet order g) : kv.1 ∈ order ∧ g kv.1 = some kv.2 := by
  rw [canonFromGet, List.mem_filterMap] at h
  obtain ⟨o, ho, hf⟩ := h
  cases hg : g o with
  | none => rw [hg] at hf; cases hf
  | some v =>
    rw [hg] at hf
    cases hf
    exact ⟨ho, hg⟩

/-- Lookup through the trailing extras loop: the accumulator wins, the
source fills the rest. -/
theorem dget_addExtras {α : Type} (k : String) :
    ∀ (l acc : List (String × α)),
      dget (addExtras acc l) k = oOr (dget acc k) (dget l k) := by
  intro l
  induction l with
  | nil =>
    intro acc
    cases h : dget acc k <;> simp [addExtras, oOr, dget, h]
  | cons kv rest ih =>
    intro acc
    by_cases hin : acc.any (fun p => p.1 = kv.1)
    · rw [addExtras, if_pos hin, ih]
      by_cases hk : kv.1 = k
      · subst hk
        have : ¬ dget acc kv.1 = none := by
          rw [dget_none_iff]
          intro hall
          rcases List.any_eq_true.mp hin with ⟨p, hp, hpk⟩
          exact hall p hp (by simpa using hpk)
        cases h : dget acc kv.1 with
        | none => exact absurd h this
        | some v => simp [oOr, h, dget]
      · simp [dget, hk]
    · rw [addExtras, if_neg hin, ih, dget_append]
      have hnone : dget acc kv.1 = none := by
        rw [dget_none_iff]
        intro p hp hpk
        exact hin (List.any_eq_true.mpr ⟨p, hp, by simpa using hpk⟩)
      by_cases hk : kv.1 = k
      · subst hk
        simp [oOr, hnone, dget]
      · cases h : dget acc k with
        | none => simp [oOr, h, dget, hk]
        | some v => simp [oOr, h, dget, hk]

/-- The extras loop appends: the result is the accumulator followed by
entries drawn from the source whose keys the accumulator lacks. -/
theorem addExtras_decomp {α : Type} :
    ∀ (l acc : List (String × α)), ∃ e, addExtras acc l = acc ++ e ∧
      ∀ kv ∈ e, kv ∈ l ∧ dget acc kv.1 = none := by
  intro l
  induction l with
  | nil =>
    intro acc
    exact ⟨[], by simp [addExtras], by simp⟩
  | cons kv rest ih =>
    intro acc
    by_cases hin : acc.any (fun p => p.1 = kv.1)
    · obtain ⟨e, he, hprop⟩ := ih acc
      refine ⟨e, by rw [addExtras, if_pos hin]; exact he, ?_⟩
      intro x hx
      exact ⟨List.mem_cons_of_mem kv (hprop x hx).1, (hprop x hx).2⟩
    · obtain ⟨e, he, hprop⟩ := ih (acc ++ [kv])
      have hnone : dget acc kv.1 = none := by
        rw [dget_none_iff]
        intro p hp hpk
        exact hin (List.any_eq_true.mpr ⟨p, hp, by simpa using hpk⟩)
      refine ⟨kv :: e, ?_, ?_⟩
      · rw [addExtras, if_neg hin, he]
        simp
      · intro x hx
        cases hx with
        | head => exact ⟨List.mem_cons_self kv rest, hnone⟩
        | tail b hx =>
          refine ⟨List.mem_cons_of_mem kv (hprop x hx).1, ?_⟩
          have h2 := (hprop x hx).2
          rw [dget_append] at h2
          cases h : dget acc x.1 with
          | none => rfl
          | some v => rw [h] at h2; exact absurd h2 (by simp [oOr])

/-- A present key is found. -/
theorem dget_ne_none_of_mem {α : Type} (l : List (String × α))
    (kv : String × α) (h : kv ∈ l) : ¬ dget l kv.1 = none := by
  rw [dget_none_iff]
  intro hall
  exact hall kv h rfl

/-- Claim C9: a successful `reorder_invoice_data` run removes
`price/quantity` from every line item; every other key — per item or
top-level, canonical or not — keeps its value; the reordered items are
installed under `Line_Items`; and each reordered item is its canonical
keys followed by its non-canonical keys. -/
theorem C9_reorder_preserves (d : TopDict) (items : List ItemDict)
    (h : getLineItemsField d = .ok items) :
    reorder_invoice_data d = .ok (reorderTopWith d items) ∧
    (∀ it : ItemDict, dget (reorderItem it) "price/quantity" = none) ∧
    (∀ it : ItemDict, ∀ k, k ≠ "price/quantity" →
      dget (reorderItem it) k = dget it k) ∧
    (∀ k, k ≠ "Line_Items" →
      dget (reorderTopWith d items) k = dget d k) ∧
    dget (reorderTopWith d items) "Line_Items" =
      some (TVal.items (items.map reorderItem)) ∧
    (∀ it : ItemDict, ∃ c e, reorderItem it = c ++ e ∧
      (∀ kv ∈ c, kv.1 ∈ line_item_order) ∧
      (∀ kv ∈ e, kv.1 ∉ line_item_order)) := by
  refine ⟨?_, ?_, ?_, ?_, ?_, ?_⟩
  · simp only [reorder_invoice_data, h, Except.map]
  · intro it
    rw [reorderItem, dget_addExtras, dget_canonFromGet,
      dget_filter_key it (fun x => x ≠ "price/quantity")]
    simp [oOr]
  · intro it k hk
    rw [reorderItem, dget_addExtras, dget_canonFromGet,
      dget_filter_key it (fun x => x ≠ "price/quantity")]
    have hb : (decide ¬(k = "price/quantity")) = true := by
      simpa using hk
    rw [if_pos hb]
    split_ifs with hmem
    · cases hv : dget it k <;> simp [oOr, hv]
    · simp [oOr]
  · intro k hk
    rw [reorderTopWith, dget_addExtras, dget_canonFromGet]
    rw [if_neg hk]
    split_ifs with hmem
    · cases hv : dget d k <;> simp [oOr, hv]
    · simp [oOr]
  · rw [reorderTopWith, dget_addExtras, dget_canonFromGet]
    rw [if_pos rfl, if_pos (by decide)]
    simp [oOr]
  · intro it
    obtain ⟨e, he, hprop⟩ :=
      addExtras_decomp (it.filter (fun kv => kv.1 ≠ "price/quantity"))
        (canonFromGet line_item_order
          (dget (it.filter (fun kv => kv.1 ≠ "price/quantity"))))
    refine ⟨_, e, he, ?_, ?_⟩
    · intro kv hkv
      exact (mem_canonFromGet line_item_order _ kv hkv).1
    · intro kv hkv hmem
      have h1 := (hprop kv hkv).1
      have h2 := (hprop kv hkv).2
      rw [dget_canonFromGet, if_pos hmem] at h2
      exact dget_ne_none_of_mem _ kv h1 h2

/-- Concrete dictionaries for the C9 witness. -/
def itemC9w : ItemDict :=
  [("line_total_excl", .vnum 10), ("price/quantity", .vstr "$10/2"),
   ("weird_key", .vnull)]

/-- A concrete top-level dictionary with a non-canonical field. -/
def dC9w : TopDict :=
  [("invoice_number", .prim (.vstr "INV-1")),
   ("custom_field", .prim (.vnum 7)),
   ("Line_Items", .items [itemC9w]),
   ("supplier_name", .prim (.vstr "ACME"))]

/-- Witness for C9: the concrete record round-trips as the theorem
states. -/
theorem C9_witness :
    reorder_invoice_data dC9w = .ok (reorderTopWith dC9w [itemC9w]) ∧
    dget (reorderItem itemC9w) "price/quantity" = none ∧
    dget (reorderItem itemC9w) "weird_key" = dget itemC9w "weird_key" ∧
    dget (reorderTopWith dC9w [itemC9w]) "custom_field" =
      dget dC9w "custom_field" ∧
    dget (reorderTopWith dC9w [itemC9w]) "Line_Items" =
      some (TVal.items ([itemC9w].map reorderItem)) := by
  have h := C9_reorder_preserves dC9w [itemC9w] (by decide)
  exact ⟨h.1, h.2.1 itemC9w, h.2.2.1 itemC9w "weird_key" (by decide),
    h.2.2.2.1 "custom_field" (by decide), h.2.2.2.2.1⟩

end Invoice
